import Mathlib

/-!
Shallow embedding of `pkg/image/nodeserver.go` from the
csi-driver-image-populator repository.

The node server talks to three black-box collaborators: the `buildah`
external tool (spawned via `runCmd`), the host mount table (queried via
`mount.New("").IsLikelyNotMountPoint` and mutated via `Mount`/`Unmount`),
and the host filesystem (`os.MkdirAll`).  We model that environment as a
`World` of oracles: what each external command prints and whether it
fails, which paths exist, which paths are mount points, and whether each
mount(8)-level operation fails.  Every boundary call returns, besides its
Go result value, the updated world and the trace of external operations
it performed, so that properties such as "no second bind mount" or "no
external process is invoked" are statements about the trace.
-/

namespace ImagePopulator

/-- The two gRPC status codes used by the node server
(`codes.InvalidArgument`, `codes.Internal`). -/
inductive Code where
  | invalidArgument
  | internal
deriving DecidableEq, Repr

/-- Go `error` values that can flow out of the node server's methods:
`status.Error(code, msg)` boundary errors, the package-level
`TimeoutError = fmt.Errorf("Timeout")`, an error from
`cmd.CombinedOutput`, and an error from `mounter.Mount`. -/
inductive GoError where
  | statusErr (code : Code) (msg : String)
  | timeoutErr
  | execErr (msg : String)
  | mountErr (msg : String)
deriving DecidableEq, Repr

/-- One externally visible operation performed by a boundary call. -/
inductive Op where
  | exec (path : String) (cmdArgs : List String)
  | mkdirAll (path : String) (perm : Nat)
  | mount (source target fstype : String) (options : List String)
  | unmount (target : String)
deriving DecidableEq, Repr

/-- `true` exactly on bind-mount operations, used to count them. -/
def Op.isMount : Op → Bool
  | .mount _ _ _ _ => true
  | _ => false

/-- Oracles for the external environment.  `cmdExceeds a` says whether the
invocation of the external tool with arguments `a` runs for longer than the
configured timeout (only consulted when a positive timeout is set);
`cmdFails a` says whether `cmd.CombinedOutput` returns a non-nil error for
it, and `cmdOutput a` is the combined stdout/stderr it captures. -/
structure World where
  pathExists : String → Bool
  mounted : String → Bool
  statOtherErr : String → Bool
  statErrMsg : String → String
  mkdirFails : String → Bool
  mkdirErrMsg : String → String
  mountFails : String → String → String → List String → Bool
  mountErrMsg : String → String → String → List String → String
  unmountFails : String → Bool
  unmountErrMsg : String → String
  cmdOutput : List String → String
  cmdFails : List String → Bool
  cmdErrMsg : List String → String
  cmdExceeds : List String → Bool

/-- World after `os.MkdirAll p` succeeds: `p` now exists. -/
def World.setPathExists (w : World) (p : String) : World :=
  { w with pathExists := fun q => if q = p then true else w.pathExists q }

/-- World after a successful mount (`b = true`) or unmount (`b = false`)
of the path `p`. -/
def World.setMounted (w : World) (p : String) (b : Bool) : World :=
  { w with mounted := fun q => if q = p then b else w.mounted q }

/-- Result of `mount.New("").IsLikelyNotMountPoint(target)`: either the
boolean answer, or an error for which `os.IsNotExist` holds, or some
other error. -/
inductive StatRes where
  | ok (notMnt : Bool)
  | errNotExist (msg : String)
  | errOther (msg : String)
deriving DecidableEq, Repr

/-- `mount.New("").IsLikelyNotMountPoint(target)` against the world:
fails with a not-exist error when the path is absent, may fail with
another error per the `statOtherErr` oracle, and otherwise answers
whether the path is not a mount point. -/
def isLikelyNotMountPoint (w : World) (target : String) : StatRes :=
  if w.pathExists target then
    if w.statOtherErr target then .errOther (w.statErrMsg target)
    else .ok (!(w.mounted target))
  else .errNotExist ("stat " ++ target ++ ": no such file or directory")

/-- The `nodeServer` struct: a process-wide timeout bound for external
commands, the path of the external executable (mutated before every
invocation), and an `args` field the source never reads. -/
structure NodeServer where
  Timeout : Nat
  execPath : String
  args : List String
deriving DecidableEq, Repr

/-- `csi.VolumeCapability_MountVolume`: the fields the server reads. -/
structure MountCap where
  fsType : String
  mountFlags : List String
deriving DecidableEq, Repr

/-- `csi.VolumeCapability`; `mount = none` models a capability whose
`GetMount()` is nil (e.g. a block capability). -/
structure VolumeCapability where
  mount : Option MountCap
deriving DecidableEq, Repr

/-- `csi.NodePublishVolumeRequest`: the fields the server reads.
`volumeCapability = none` models a request with no capability;
`publishContext = none` models a nil publish-context map. -/
structure NodePublishVolumeRequest where
  volumeId : String
  targetPath : String
  volumeCapability : Option VolumeCapability
  volumeContext : List (String × String)
  publishContext : Option (List (String × String))
  readonly : Bool
deriving DecidableEq, Repr

/-- `csi.NodeUnpublishVolumeRequest`: the fields the server reads. -/
structure NodeUnpublishVolumeRequest where
  volumeId : String
  targetPath : String
deriving DecidableEq, Repr

/-- Go `strings.TrimSpace`: the string with leading and trailing
whitespace removed, implemented structurally over the character list. -/
def trimSpace (s : String) : String :=
  ⟨((s.data.dropWhile Char.isWhitespace).reverse.dropWhile Char.isWhitespace).reverse⟩

/-- Go map indexing `m[k]` on a `map[string]string`: the zero value `""`
when the key is absent (also when the map is nil). -/
def mapIndex (m : List (String × String)) (k : String) : String :=
  match m.find? (fun p => p.1 == k) with
  | some p => p.2
  | none => ""

/-- `req.GetVolumeCapability().GetMount().GetFsType()` with protobuf
nil-safety: `""` when the capability or its mount section is nil. -/
def getFsType (c : Option VolumeCapability) : String :=
  match c with
  | some cap =>
    match cap.mount with
    | some m => m.fsType
    | none => ""
  | none => ""

/-- `req.GetVolumeCapability().GetMount().GetMountFlags()` with protobuf
nil-safety: `[]` when the capability or its mount section is nil. -/
def getMountFlags (c : Option VolumeCapability) : List String :=
  match c with
  | some cap =>
    match cap.mount with
    | some m => m.mountFlags
    | none => []
  | none => []

/-- Outcome of one boundary call: the Go return value (`Unit` stands for
the empty response message), the node server (whose `execPath` field the
call may have mutated), the world after the call's side effects, and the
trace of external operations performed. -/
structure CallResult where
  res : Except GoError Unit
  ns : NodeServer
  w : World
  trace : List Op

/-- `nodeServer.runCmd`: spawns `ns.execPath` with `cmdArgs`.  A timer
flags `timeout` when a positive `ns.Timeout` elapses first (the process
is not killed).  On a non-nil `CombinedOutput` error the call returns
`TimeoutError` if the flag was set, otherwise the output together with
the raw error; on a nil error it returns the output even if the timer
fired.  Components: captured output (`none` models Go's nil slice),
error, trace. -/
def runCmd (ns : NodeServer) (w : World) (cmdArgs : List String) :
    Option String × Option GoError × List Op :=
  let timedOut : Bool := decide (0 < ns.Timeout) && w.cmdExceeds cmdArgs
  let res : Option String × Option GoError :=
    if w.cmdFails cmdArgs then
      if timedOut then (none, some GoError.timeoutErr)
      else (some (w.cmdOutput cmdArgs), some (GoError.execErr (w.cmdErrMsg cmdArgs)))
    else (some (w.cmdOutput cmdArgs), none)
  (res.1, res.2, [Op.exec ns.execPath cmdArgs])

/-- `nodeServer.setupVolume`: runs
`/bin/buildah from --name <volumeId> --pull <image>` and returns the
command's error; the trimmed output is computed only for logging. -/
def setupVolume (ns : NodeServer) (w : World) (volumeId image : String) :
    Option GoError × NodeServer × List Op :=
  let cmdArgs := ["from", "--name", volumeId, "--pull", image]
  let ns1 : NodeServer := { ns with execPath := "/bin/buildah" }
  let r := runCmd ns1 w cmdArgs
  (r.2.1, ns1, r.2.2)

/-- `nodeServer.unsetupVolume`: runs `/bin/buildah delete <volumeId>` and
returns the command's error; the trimmed output is computed only for
logging. -/
def unsetupVolume (ns : NodeServer) (w : World) (volumeId : String) :
    Option GoError × NodeServer × List Op :=
  let cmdArgs := ["delete", volumeId]
  let ns1 : NodeServer := { ns with execPath := "/bin/buildah" }
  let r := runCmd ns1 w cmdArgs
  (r.2.1, ns1, r.2.2)

/-- Lines 89-122 of `NodePublishVolume`, reached when the target is not
a mount point: reads `fsType`, `deviceId` and `mountFlags` (used only
for logging), builds `options` as `["bind"]` plus `"ro"` when read-only,
runs `/bin/buildah mount <volumeId>` (its error is not handled), trims
the output into `provisionRoot`, and bind-mounts it onto the target with
an empty fstype string. -/
def publishMount (ns : NodeServer) (w : World) (req : NodePublishVolumeRequest)
    (tr : List Op) : CallResult :=
  let targetPath := req.targetPath
  let fsType := getFsType req.volumeCapability
  let deviceId :=
    match req.publishContext with
    | some pc => mapIndex pc "deviceID"
    | none => ""
  let readOnly := req.readonly
  let volumeId := req.volumeId
  let mountFlags := getMountFlags req.volumeCapability
  let options := ["bind"] ++ (if readOnly then ["ro"] else [])
  let cmdArgs := ["mount", volumeId]
  let ns1 : NodeServer := { ns with execPath := "/bin/buildah" }
  let r := runCmd ns1 w cmdArgs
  let provisionRoot := trimSpace (r.1.getD "")
  let _unused := (fsType, deviceId, mountFlags)
  if w.mountFails provisionRoot targetPath "" options then
    ⟨.error (.mountErr (w.mountErrMsg provisionRoot targetPath "" options)), ns1, w,
      tr ++ r.2.2 ++ [.mount provisionRoot targetPath "" options]⟩
  else
    ⟨.ok (), ns1, w.setMounted targetPath true,
      tr ++ r.2.2 ++ [.mount provisionRoot targetPath "" options]⟩

/-- `nodeServer.NodePublishVolume`: validates the capability, volume id
and target path; extracts the image from the volume context; provisions
via `setupVolume` (returning its error raw on failure); checks whether
the target is already a mount point, creating it with mode 0750 if
absent; returns success with no mount when it is already mounted; and
otherwise bind-mounts the provisioned root onto the target. -/
def NodePublishVolume (ns : NodeServer) (w : World)
    (req : NodePublishVolumeRequest) : CallResult :=
  if req.volumeCapability = none then
    ⟨.error (.statusErr .invalidArgument "Volume capability missing in request"), ns, w, []⟩
  else if req.volumeId.length = 0 then
    ⟨.error (.statusErr .invalidArgument "Volume ID missing in request"), ns, w, []⟩
  else if req.targetPath.length = 0 then
    ⟨.error (.statusErr .invalidArgument "Target path missing in request"), ns, w, []⟩
  else
    let image := mapIndex req.volumeContext "image"
    let sv := setupVolume ns w req.volumeId image
    match sv.1 with
    | some e => ⟨.error e, sv.2.1, w, sv.2.2⟩
    | none =>
      let targetPath := req.targetPath
      match isLikelyNotMountPoint w targetPath with
      | .errOther m => ⟨.error (.statusErr .internal m), sv.2.1, w, sv.2.2⟩
      | .errNotExist _ =>
        if w.mkdirFails targetPath then
          ⟨.error (.statusErr .internal (w.mkdirErrMsg targetPath)), sv.2.1, w,
            sv.2.2 ++ [.mkdirAll targetPath 0o750]⟩
        else
          publishMount sv.2.1 (w.setPathExists targetPath) req
            (sv.2.2 ++ [.mkdirAll targetPath 0o750])
      | .ok notMnt =>
        if !notMnt then ⟨.ok (), sv.2.1, w, sv.2.2⟩
        else publishMount sv.2.1 w req sv.2.2

/-- Tail of `NodeUnpublishVolume`: release the provisioned root via
`unsetupVolume`, returning its error raw on failure. -/
def unpublishRelease (ns : NodeServer) (w : World) (volumeId : String)
    (tr : List Op) : CallResult :=
  let u := unsetupVolume ns w volumeId
  match u.1 with
  | some e => ⟨.error e, u.2.1, w, tr ++ u.2.2⟩
  | none => ⟨.ok (), u.2.1, w, tr ++ u.2.2⟩

/-- `nodeServer.NodeUnpublishVolume`: validates the volume id and target
path; queries the mount table (any error becomes an Internal status
error); unmounts only when the target is still a mount point (an unmount
failure becomes an Internal status error); then releases the provisioned
root via `unsetupVolume`. -/
def NodeUnpublishVolume (ns : NodeServer) (w : World)
    (req : NodeUnpublishVolumeRequest) : CallResult :=
  if req.volumeId.length = 0 then
    ⟨.error (.statusErr .invalidArgument "Volume ID missing in request"), ns, w, []⟩
  else if req.targetPath.length = 0 then
    ⟨.error (.statusErr .invalidArgument "Target path missing in request"), ns, w, []⟩
  else
    let targetPath := req.targetPath
    let volumeId := req.volumeId
    match isLikelyNotMountPoint w targetPath with
    | .errNotExist m => ⟨.error (.statusErr .internal m), ns, w, []⟩
    | .errOther m => ⟨.error (.statusErr .internal m), ns, w, []⟩
    | .ok notMnt =>
      if !notMnt then
        if w.unmountFails targetPath then
          ⟨.error (.statusErr .internal (w.unmountErrMsg targetPath)), ns, w,
            [.unmount targetPath]⟩
        else
          unpublishRelease ns (w.setMounted targetPath false) volumeId
            [.unmount targetPath]
      else unpublishRelease ns w volumeId []

/-- `nodeServer.NodeStageVolume` and `NodeUnstageVolume` are immediate
successes; one model covers both. -/
def NodeStageVolume (ns : NodeServer) (w : World) : CallResult :=
  ⟨.ok (), ns, w, []⟩

/-! Concrete sample environments and requests, used to instantiate the
general theorems below and to exhibit counterexamples. -/

/-- A healthy environment: every path exists, nothing is mounted, every
external command succeeds printing `/provision/root`, and no mount-table
operation fails. -/
def wBase : World where
  pathExists := fun _ => true
  mounted := fun _ => false
  statOtherErr := fun _ => false
  statErrMsg := fun _ => "stat error"
  mkdirFails := fun _ => false
  mkdirErrMsg := fun _ => "mkdir error"
  mountFails := fun _ _ _ _ => false
  mountErrMsg := fun _ _ _ _ => "mount error"
  unmountFails := fun _ => false
  unmountErrMsg := fun _ => "unmount error"
  cmdOutput := fun _ => "/provision/root\n"
  cmdFails := fun _ => false
  cmdErrMsg := fun _ => "exit status 1"
  cmdExceeds := fun _ => false

/-- Environment in which `/mnt/x` is already a mount point. -/
def wMounted : World :=
  { wBase with mounted := fun p => p == "/mnt/x" }

/-- Environment in which every external command outlives the configured
timeout but still succeeds. -/
def wExceed : World :=
  { wBase with cmdExceeds := fun _ => true }

/-- Environment in which the provisioning command (`from ...`) fails and
outlives the configured timeout. -/
def wFromFail : World :=
  { wBase with
    cmdFails := fun a => a.head? == some "from"
    cmdExceeds := fun _ => true }

/-- Environment in which the `from` invocation prints `/roots/A` while
the `mount` invocation prints `/roots/B`. -/
def wAB : World :=
  { wBase with
    cmdOutput := fun a => if a.head? == some "from" then "/roots/A\n" else "/roots/B\n" }

/-- A node server with no timeout configured. -/
def ns0 : NodeServer := { Timeout := 0, execPath := "", args := [] }

/-- A node server with a positive timeout configured. -/
def nsT : NodeServer := { Timeout := 5, execPath := "", args := [] }

/-- A well-formed publish request: read-only, with a caller-supplied
mount flag and an image in the volume context. -/
def reqPub : NodePublishVolumeRequest where
  volumeId := "vol-1"
  targetPath := "/mnt/x"
  volumeCapability := some { mount := some { fsType := "ext4", mountFlags := ["noexec"] } }
  volumeContext := [("image", "repo/app:latest")]
  publishContext := none
  readonly := true

/-- A publish request whose volume context has no `image` key. -/
def reqPubNoImage : NodePublishVolumeRequest :=
  { reqPub with volumeContext := [("foo", "bar")] }

/-- A publish request with no volume capability. -/
def reqPubNoCap : NodePublishVolumeRequest :=
  { reqPub with volumeCapability := none }

/-- A well-formed unpublish request. -/
def reqUnpub : NodeUnpublishVolumeRequest where
  volumeId := "vol-1"
  targetPath := "/mnt/x"

/-- An unpublish request with an empty volume id. -/
def reqUnpubNoId : NodeUnpublishVolumeRequest where
  volumeId := ""
  targetPath := "/mnt/x"

/-! Helper lemmas about the embedding. -/

/-- `runCmd` always records exactly the one process invocation. -/
theorem runCmd_trace (ns : NodeServer) (w : World) (a : List String) :
    (runCmd ns w a).2.2 = [Op.exec ns.execPath a] := rfl

/-- `runCmd` when the command succeeds. -/
theorem runCmd_ok (ns : NodeServer) (w : World) (a : List String)
    (h : w.cmdFails a = false) :
    runCmd ns w a = (some (w.cmdOutput a), none, [Op.exec ns.execPath a]) := by
  unfold runCmd
  simp [h]

/-- `runCmd` when the command fails after the configured timeout expired. -/
theorem runCmd_fail_timedOut (ns : NodeServer) (w : World) (a : List String)
    (hf : w.cmdFails a = true) (hT : 0 < ns.Timeout) (hE : w.cmdExceeds a = true) :
    runCmd ns w a = (none, some GoError.timeoutErr, [Op.exec ns.execPath a]) := by
  unfold runCmd
  simp [hf, hT, hE]

/-- `runCmd` when the command fails and the timeout flag is not set. -/
theorem runCmd_fail_noTimeout (ns : NodeServer) (w : World) (a : List String)
    (hf : w.cmdFails a = true)
    (ht : (decide (0 < ns.Timeout) && w.cmdExceeds a) = false) :
    runCmd ns w a =
      (some (w.cmdOutput a), some (GoError.execErr (w.cmdErrMsg a)),
        [Op.exec ns.execPath a]) := by
  unfold runCmd
  simp [hf, ht]

/-- A failing `runCmd` reports either the timeout error or the raw
process error; never a boundary status error. -/
theorem runCmd_err_cases (ns : NodeServer) (w : World) (a : List String)
    (e : GoError) (h : (runCmd ns w a).2.1 = some e) :
    e = GoError.timeoutErr ∨ e = GoError.execErr (w.cmdErrMsg a) := by
  unfold runCmd at h
  dsimp only at h
  split at h
  · split at h
    · exact Or.inl (Option.some.inj h).symm
    · exact Or.inr (Option.some.inj h).symm
  · cases h

/-- `setupVolume` records exactly the provisioning invocation. -/
theorem setupVolume_trace (ns : NodeServer) (w : World) (v i : String) :
    (setupVolume ns w v i).2.2 =
      [Op.exec "/bin/buildah" ["from", "--name", v, "--pull", i]] := rfl

/-- `setupVolume` returns the node server with `execPath` set. -/
theorem setupVolume_ns (ns : NodeServer) (w : World) (v i : String) :
    (setupVolume ns w v i).2.1 = { ns with execPath := "/bin/buildah" } := rfl

/-- `setupVolume`'s error component is `runCmd`'s. -/
theorem setupVolume_err (ns : NodeServer) (w : World) (v i : String) :
    (setupVolume ns w v i).1 =
      (runCmd { ns with execPath := "/bin/buildah" } w
        ["from", "--name", v, "--pull", i]).2.1 := rfl

/-- `unsetupVolume` records exactly the release invocation. -/
theorem unsetupVolume_trace (ns : NodeServer) (w : World) (v : String) :
    (unsetupVolume ns w v).2.2 = [Op.exec "/bin/buildah" ["delete", v]] := rfl

/-- `runCmd` only consults the command oracles, which `setPathExists`
leaves untouched. -/
theorem runCmd_setPathExists (ns : NodeServer) (w : World) (p : String)
    (a : List String) : runCmd ns (w.setPathExists p) a = runCmd ns w a := rfl

/-- `runCmd` only consults the command oracles, which `setMounted`
leaves untouched. -/
theorem runCmd_setMounted (ns : NodeServer) (w : World) (p : String) (b : Bool)
    (a : List String) : runCmd ns (w.setMounted p b) a = runCmd ns w a := rfl

/-- The operations `publishMount` performs: the `mount <volumeId>`
invocation followed by exactly one bind mount of the trimmed output onto
the target, with an empty fstype and options `bind` plus `ro` when
read-only. -/
theorem publishMount_trace (ns : NodeServer) (w : World)
    (req : NodePublishVolumeRequest) (tr : List Op) :
    (publishMount ns w req tr).trace =
      tr ++ [Op.exec "/bin/buildah" ["mount", req.volumeId],
        Op.mount
          (trimSpace ((runCmd { ns with execPath := "/bin/buildah" } w
            ["mount", req.volumeId]).1.getD ""))
          req.targetPath "" ("bind" :: (if req.readonly then ["ro"] else []))] := by
  unfold publishMount
  dsimp only
  split <;> split <;> simp [runCmd_trace]

/-- `publishMount` either succeeds or fails with the raw mount error. -/
theorem publishMount_res (ns : NodeServer) (w : World)
    (req : NodePublishVolumeRequest) (tr : List Op) :
    (publishMount ns w req tr).res = .ok () ∨
      ∃ m, (publishMount ns w req tr).res = .error (.mountErr m) := by
  unfold publishMount
  dsimp only
  split <;> split <;> first
    | exact Or.inl rfl
    | exact Or.inr ⟨_, rfl⟩

/-- Any bind mount inside a `publishMount` whose incoming trace has no
bind mounts is the one `publishMount` itself performs. -/
theorem mount_mem_publishMount (ns : NodeServer) (w : World)
    (req : NodePublishVolumeRequest) (tr : List Op) (s t f : String)
    (o : List String)
    (htr : ∀ s' t' f' o', Op.mount s' t' f' o' ∈ tr → False)
    (h : Op.mount s t f o ∈ (publishMount ns w req tr).trace) :
    s = trimSpace ((runCmd { ns with execPath := "/bin/buildah" } w
        ["mount", req.volumeId]).1.getD "") ∧
    t = req.targetPath ∧ f = "" ∧
    o = "bind" :: (if req.readonly then ["ro"] else []) := by
  rw [publishMount_trace] at h
  simp only [List.mem_append, List.mem_cons, List.not_mem_nil, or_false,
    Op.mount.injEq] at h
  rcases h with h | h | h
  · exact absurd h (fun hh => htr _ _ _ _ hh)
  · cases h
  · exact h

/-- The `unpublishRelease` tail always appends exactly the release
invocation to the trace. -/
theorem unpublishRelease_trace (ns : NodeServer) (w : World) (v : String)
    (tr : List Op) :
    (unpublishRelease ns w v tr).trace =
      tr ++ [Op.exec "/bin/buildah" ["delete", v]] := by
  unfold unpublishRelease
  dsimp only
  split <;> rfl

/-- Every bind mount a publish call performs mounts the trimmed output
of the `mount <volumeId>` invocation onto the request's target path,
with an empty fstype string and options `bind` plus `ro` when the
request is read-only. -/
theorem mount_mem_publish (ns : NodeServer) (w : World)
    (req : NodePublishVolumeRequest) (s t f : String) (o : List String)
    (h : Op.mount s t f o ∈ (NodePublishVolume ns w req).trace) :
    s = trimSpace ((runCmd { ns with execPath := "/bin/buildah" } w
        ["mount", req.volumeId]).1.getD "") ∧
    t = req.targetPath ∧ f = "" ∧
    o = "bind" :: (if req.readonly then ["ro"] else []) := by
  unfold NodePublishVolume at h
  split at h
  · simp at h
  · split at h
    · simp at h
    · split at h
      · simp at h
      · dsimp only at h
        split at h
        · rw [show (CallResult.mk _ _ _ _).trace =
              (setupVolume ns w req.volumeId
                (mapIndex req.volumeContext "image")).2.2 from rfl,
            setupVolume_trace] at h
          simp at h
        · split at h
          · rw [show (CallResult.mk _ _ _ _).trace =
                (setupVolume ns w req.volumeId
                  (mapIndex req.volumeContext "image")).2.2 from rfl,
              setupVolume_trace] at h
            simp at h
          · split at h
            · rw [show (CallResult.mk _ _ _ _).trace =
                  (setupVolume ns w req.volumeId
                    (mapIndex req.volumeContext "image")).2.2 ++
                    [Op.mkdirAll req.targetPath 0o750] from rfl,
                setupVolume_trace] at h
              simp at h
            · have hmm := mount_mem_publishMount _ _ _ _ s t f o
                (by rw [setupVolume_trace]; intro s' t' f' o' hh; simp at hh) h
              simpa [setupVolume_ns, runCmd_setPathExists] using hmm
          · split at h
            · rw [show (CallResult.mk _ _ _ _).trace =
                  (setupVolume ns w req.volumeId
                    (mapIndex req.volumeContext "image")).2.2 from rfl,
                setupVolume_trace] at h
              simp at h
            · have hmm := mount_mem_publishMount _ _ _ _ s t f o
                (by rw [setupVolume_trace]; intro s' t' f' o' hh; simp at hh) h
              simpa [setupVolume_ns] using hmm

/-- Once a publish request passes field validation, its trace starts
with the provisioning invocation and its result, whatever happens next,
is never an InvalidArgument status error. -/
theorem publish_head (ns : NodeServer) (w : World)
    (req : NodePublishVolumeRequest)
    (hcap : req.volumeCapability ≠ none)
    (hvid : req.volumeId.length ≠ 0) (htp : req.targetPath.length ≠ 0) :
    (∃ rest, (NodePublishVolume ns w req).trace =
      Op.exec "/bin/buildah" ["from", "--name", req.volumeId, "--pull",
        mapIndex req.volumeContext "image"] :: rest) ∧
    ∀ m, (NodePublishVolume ns w req).res ≠
      .error (.statusErr .invalidArgument m) := by
  unfold NodePublishVolume
  rw [if_neg hcap, if_neg hvid, if_neg htp]
  dsimp only
  split
  · next e heq =>
    refine ⟨⟨[], by rw [show (CallResult.mk _ _ _ _).trace =
        (setupVolume ns w req.volumeId
          (mapIndex req.volumeContext "image")).2.2 from rfl,
      setupVolume_trace]⟩, ?_⟩
    intro m hm
    simp only [show (CallResult.mk (Except.error e) _ _ _).res =
      Except.error e from rfl, Except.error.injEq] at hm
    rcases runCmd_err_cases _ _ _ e
        ((setupVolume_err ns w req.volumeId
          (mapIndex req.volumeContext "image")) ▸ heq) with h1 | h1 <;>
      rw [hm] at h1 <;> cases h1
  · split
    · refine ⟨⟨[], by rw [show (CallResult.mk _ _ _ _).trace =
          (setupVolume ns w req.volumeId
            (mapIndex req.volumeContext "image")).2.2 from rfl,
        setupVolume_trace]⟩, ?_⟩
      intro m hm
      simp at hm
    · split
      · refine ⟨⟨[Op.mkdirAll req.targetPath 0o750],
          by rw [show (CallResult.mk _ _ _ _).trace =
              (setupVolume ns w req.volumeId
                (mapIndex req.volumeContext "image")).2.2 ++
              [Op.mkdirAll req.targetPath 0o750] from rfl,
            setupVolume_trace]; rfl⟩, ?_⟩
        intro m hm
        simp at hm
      · constructor
        · have h1 := publishMount_trace (setupVolume ns w req.volumeId
              (mapIndex req.volumeContext "image")).2.1
              (w.setPathExists req.targetPath) req
              ((setupVolume ns w req.volumeId
                (mapIndex req.volumeContext "image")).2.2 ++
                [Op.mkdirAll req.targetPath 0o750])
          rw [setupVolume_trace] at h1
          exact ⟨_, h1⟩
        · intro m hm
          rcases publishMount_res (setupVolume ns w req.volumeId
              (mapIndex req.volumeContext "image")).2.1
              (w.setPathExists req.targetPath) req
              ((setupVolume ns w req.volumeId
                (mapIndex req.volumeContext "image")).2.2 ++
                [Op.mkdirAll req.targetPath 0o750]) with h1 | ⟨m2, h1⟩ <;>
            rw [h1] at hm <;> simp at hm
    · split
      · refine ⟨⟨[], by rw [show (CallResult.mk _ _ _ _).trace =
            (setupVolume ns w req.volumeId
              (mapIndex req.volumeContext "image")).2.2 from rfl,
          setupVolume_trace]⟩, ?_⟩
        intro m hm
        simp at hm
      · constructor
        · have h1 := publishMount_trace (setupVolume ns w req.volumeId
              (mapIndex req.volumeContext "image")).2.1 w req
              (setupVolume ns w req.volumeId
                (mapIndex req.volumeContext "image")).2.2
          rw [setupVolume_trace] at h1
          exact ⟨_, h1⟩
        · intro m hm
          rcases publishMount_res (setupVolume ns w req.volumeId
              (mapIndex req.volumeContext "image")).2.1 w req
              (setupVolume ns w req.volumeId
                (mapIndex req.volumeContext "image")).2.2 with h1 | ⟨m2, h1⟩ <;>
            rw [h1] at hm <;> simp at hm

/-- A publish call against an already-mounted target: the provisioning
command runs, the mount-table check answers "mounted", and the call
returns success having performed no further operation. -/
theorem publish_already_mounted_eq (ns : NodeServer) (w : World)
    (req : NodePublishVolumeRequest)
    (hcap : req.volumeCapability ≠ none)
    (hvid : req.volumeId.length ≠ 0) (htp : req.targetPath.length ≠ 0)
    (hsf : w.cmdFails ["from", "--name", req.volumeId, "--pull",
      mapIndex req.volumeContext "image"] = false)
    (hpe : w.pathExists req.targetPath = true)
    (hso : w.statOtherErr req.targetPath = false)
    (hm : w.mounted req.targetPath = true) :
    NodePublishVolume ns w req =
      ⟨.ok (), { ns with execPath := "/bin/buildah" }, w,
        [Op.exec "/bin/buildah"
          ["from", "--name", req.volumeId, "--pull",
            mapIndex req.volumeContext "image"]]⟩ := by
  simp [NodePublishVolume, setupVolume, runCmd, isLikelyNotMountPoint,
    hcap, hvid, htp, hsf, hpe, hso, hm]

/-- A publish call against an existing, unmounted target in a healthy
environment: provisioning, the `mount <volumeId>` invocation, and
exactly one bind mount, after which the target is recorded as mounted. -/
theorem publish_fresh_eq (ns : NodeServer) (w : World)
    (req : NodePublishVolumeRequest)
    (hcap : req.volumeCapability ≠ none)
    (hvid : req.volumeId.length ≠ 0) (htp : req.targetPath.length ≠ 0)
    (hsf : w.cmdFails ["from", "--name", req.volumeId, "--pull",
      mapIndex req.volumeContext "image"] = false)
    (hpe : w.pathExists req.targetPath = true)
    (hso : w.statOtherErr req.targetPath = false)
    (hm : w.mounted req.targetPath = false)
    (hmc : w.cmdFails ["mount", req.volumeId] = false)
    (hmf : w.mountFails (trimSpace (w.cmdOutput ["mount", req.volumeId]))
      req.targetPath "" ("bind" :: (if req.readonly then ["ro"] else [])) = false) :
    NodePublishVolume ns w req =
      ⟨.ok (), { ns with execPath := "/bin/buildah" },
        w.setMounted req.targetPath true,
        [Op.exec "/bin/buildah" ["from", "--name", req.volumeId, "--pull",
          mapIndex req.volumeContext "image"],
         Op.exec "/bin/buildah" ["mount", req.volumeId],
         Op.mount (trimSpace (w.cmdOutput ["mount", req.volumeId]))
           req.targetPath ""
           ("bind" :: (if req.readonly then ["ro"] else []))]⟩ := by
  simp [NodePublishVolume, setupVolume, publishMount, runCmd,
    isLikelyNotMountPoint, hcap, hvid, htp, hsf, hpe, hso, hm, hmc, hmf]

/-- An unpublish call whose target exists but is not mounted: no unmount
is attempted, the release invocation runs, and the call succeeds when it
does. -/
theorem unpublish_not_mounted_eq (ns : NodeServer) (w : World)
    (req : NodeUnpublishVolumeRequest)
    (hvid : req.volumeId.length ≠ 0) (htp : req.targetPath.length ≠ 0)
    (hpe : w.pathExists req.targetPath = true)
    (hso : w.statOtherErr req.targetPath = false)
    (hm : w.mounted req.targetPath = false)
    (hdel : w.cmdFails ["delete", req.volumeId] = false) :
    NodeUnpublishVolume ns w req =
      ⟨.ok (), { ns with execPath := "/bin/buildah" }, w,
        [Op.exec "/bin/buildah" ["delete", req.volumeId]]⟩ := by
  simp [NodeUnpublishVolume, unpublishRelease, unsetupVolume, runCmd,
    isLikelyNotMountPoint, hvid, htp, hpe, hso, hm, hdel]

/-! Claim theorems. -/

/-- C1 counterexample: the publish call with caller-supplied mount flag
`noexec` performs a bind mount whose option list is exactly
`["bind", "ro"]` — the flags from the volume capability are not appended
to the indicators, contradicting the claim. -/
theorem publish_mountFlags_dropped_cx :
    (NodePublishVolume ns0 wBase reqPub).trace =
      [Op.exec "/bin/buildah" ["from", "--name", "vol-1", "--pull", "repo/app:latest"],
       Op.exec "/bin/buildah" ["mount", "vol-1"],
       Op.mount "/provision/root" "/mnt/x" "" ["bind", "ro"]] ∧
    getMountFlags reqPub.volumeCapability = ["noexec"] ∧
    (["bind", "ro"] : List String) ≠
      ["bind", "ro"] ++ getMountFlags reqPub.volumeCapability := by
  refine ⟨by decide, by decide, by decide⟩

/-- C1 (amended): the option list of every bind mount a publish call
performs always contains the bind indicator and contains the read-only
indicator exactly when the request specifies read-only access; the
caller-supplied mount flags from the volume capability are read but not
appended. -/
theorem publish_mount_options (ns : NodeServer) (w : World)
    (req : NodePublishVolumeRequest) (s t f : String) (o : List String)
    (h : Op.mount s t f o ∈ (NodePublishVolume ns w req).trace) :
    o = "bind" :: (if req.readonly then ["ro"] else []) ∧
    "bind" ∈ o ∧ (("ro" : String) ∈ o ↔ req.readonly = true) := by
  obtain ⟨-, -, -, ho⟩ := mount_mem_publish ns w req s t f o h
  subst ho
  refine ⟨rfl, List.mem_cons_self _ _, ?_⟩
  cases hr : req.readonly <;> simp

/-- Witness for `publish_mount_options` at a concrete successful publish. -/
theorem publish_mount_options_witness :
    Op.mount "/provision/root" "/mnt/x" "" ["bind", "ro"] ∈
      (NodePublishVolume ns0 wBase reqPub).trace ∧
    ((["bind", "ro"] : List String) =
        "bind" :: (if reqPub.readonly then ["ro"] else []) ∧
      "bind" ∈ (["bind", "ro"] : List String) ∧
      (("ro" : String) ∈ (["bind", "ro"] : List String) ↔
        reqPub.readonly = true)) :=
  ⟨by decide, publish_mount_options ns0 wBase reqPub "/provision/root" "/mnt/x" ""
    ["bind", "ro"] (by decide)⟩

/-- C2 counterexample: with a positive timeout configured and the process
outliving it, a process that eventually exits successfully makes the call
succeed — the error component is `none`, not the Timeout error the claim
requires regardless of exit status. -/
theorem runCmd_late_success_cx :
    0 < nsT.Timeout ∧
    wExceed.cmdExceeds ["from", "--name", "vol-1", "--pull", "repo/app:latest"] = true ∧
    wExceed.cmdFails ["from", "--name", "vol-1", "--pull", "repo/app:latest"] = false ∧
    (runCmd { nsT with execPath := "/bin/buildah" } wExceed
      ["from", "--name", "vol-1", "--pull", "repo/app:latest"]).2.1 = none := by
  refine ⟨by decide, rfl, rfl, rfl⟩

/-- C2 (amended): when a positive configured timeout expires before the
external process completes and the process invocation returns an error,
the call fails with the distinguished Timeout error and never with the
generic process error. (A process that outlives the timeout but exits
successfully yields success instead; see the counterexample.) -/
theorem runCmd_timeout_classed (ns : NodeServer) (w : World) (a : List String)
    (hT : 0 < ns.Timeout) (hE : w.cmdExceeds a = true)
    (hF : w.cmdFails a = true) :
    (runCmd ns w a).2.1 = some GoError.timeoutErr ∧
    ∀ m, (runCmd ns w a).2.1 ≠ some (GoError.execErr m) := by
  rw [runCmd_fail_timedOut ns w a hF hT hE]
  exact ⟨rfl, fun _ hm => by simp at hm⟩

/-- Witness for `runCmd_timeout_classed` at a concrete invocation. -/
theorem runCmd_timeout_classed_witness :
    0 < nsT.Timeout ∧
    wFromFail.cmdExceeds ["from", "--name", "vol-1", "--pull", "repo/app:latest"] = true ∧
    wFromFail.cmdFails ["from", "--name", "vol-1", "--pull", "repo/app:latest"] = true ∧
    ((runCmd nsT wFromFail
        ["from", "--name", "vol-1", "--pull", "repo/app:latest"]).2.1 =
      some GoError.timeoutErr ∧
      ∀ m, (runCmd nsT wFromFail
        ["from", "--name", "vol-1", "--pull", "repo/app:latest"]).2.1 ≠
        some (GoError.execErr m)) :=
  ⟨by decide, rfl, rfl,
    runCmd_timeout_classed nsT wFromFail
      ["from", "--name", "vol-1", "--pull", "repo/app:latest"]
      (by decide) rfl rfl⟩

/-- C3: a valid publish against an already-mounted target returns success
with no bind mount performed, and two consecutive publish calls with the
same request perform exactly one bind mount in total. -/
theorem publish_idempotent (ns : NodeServer) (w : World)
    (req : NodePublishVolumeRequest)
    (hcap : req.volumeCapability ≠ none)
    (hvid : req.volumeId.length ≠ 0) (htp : req.targetPath.length ≠ 0)
    (hsf : w.cmdFails ["from", "--name", req.volumeId, "--pull",
      mapIndex req.volumeContext "image"] = false)
    (hpe : w.pathExists req.targetPath = true)
    (hso : w.statOtherErr req.targetPath = false) :
    (w.mounted req.targetPath = true →
      (NodePublishVolume ns w req).res = .ok () ∧
      (NodePublishVolume ns w req).trace.countP Op.isMount = 0) ∧
    (w.mounted req.targetPath = false →
      w.cmdFails ["mount", req.volumeId] = false →
      w.mountFails (trimSpace (w.cmdOutput ["mount", req.volumeId]))
        req.targetPath ""
        ("bind" :: (if req.readonly then ["ro"] else [])) = false →
      ((NodePublishVolume ns w req).trace ++
        (NodePublishVolume (NodePublishVolume ns w req).ns
          (NodePublishVolume ns w req).w req).trace).countP Op.isMount = 1) := by
  constructor
  · intro hm
    rw [publish_already_mounted_eq ns w req hcap hvid htp hsf hpe hso hm]
    exact ⟨rfl, rfl⟩
  · intro hm hmc hmf
    rw [publish_fresh_eq ns w req hcap hvid htp hsf hpe hso hm hmc hmf]
    dsimp only
    rw [publish_already_mounted_eq { ns with execPath := "/bin/buildah" }
      (w.setMounted req.targetPath true) req hcap hvid htp hsf hpe hso
      (by simp [World.setMounted])]
    simp [List.countP_cons, List.countP_append, Op.isMount]

/-- Witness for `publish_idempotent` at a concrete fresh publish. -/
theorem publish_idempotent_witness :
    (reqPub.volumeCapability ≠ none ∧ reqPub.volumeId.length ≠ 0 ∧
      reqPub.targetPath.length ≠ 0 ∧
      wBase.cmdFails ["from", "--name", reqPub.volumeId, "--pull",
        mapIndex reqPub.volumeContext "image"] = false ∧
      wBase.pathExists reqPub.targetPath = true ∧
      wBase.statOtherErr reqPub.targetPath = false) ∧
    ((wBase.mounted reqPub.targetPath = true →
      (NodePublishVolume ns0 wBase reqPub).res = .ok () ∧
      (NodePublishVolume ns0 wBase reqPub).trace.countP Op.isMount = 0) ∧
    (wBase.mounted reqPub.targetPath = false →
      wBase.cmdFails ["mount", reqPub.volumeId] = false →
      wBase.mountFails (trimSpace (wBase.cmdOutput ["mount", reqPub.volumeId]))
        reqPub.targetPath ""
        ("bind" :: (if reqPub.readonly then ["ro"] else [])) = false →
      ((NodePublishVolume ns0 wBase reqPub).trace ++
        (NodePublishVolume (NodePublishVolume ns0 wBase reqPub).ns
          (NodePublishVolume ns0 wBase reqPub).w reqPub).trace).countP
        Op.isMount = 1)) :=
  ⟨⟨by decide, by decide, by decide, rfl, rfl, rfl⟩,
    publish_idempotent ns0 wBase reqPub (by decide) (by decide) (by decide)
      rfl rfl rfl⟩

/-- C4 counterexample: a provisioning failure after timeout expiry makes
the publish call fail with the raw `TimeoutError`, which is not a status
error of the boundary's Internal class. -/
theorem publish_provision_raw_error_cx :
    (NodePublishVolume nsT wFromFail reqPub).res = .error GoError.timeoutErr ∧
    ∀ m, GoError.timeoutErr ≠ GoError.statusErr Code.internal m :=
  ⟨rfl, fun _ h => GoError.noConfusion h⟩

/-- C4 (amended): when provisioning fails, the publish call fails with
the raw component error — the Timeout error if the timeout flag fired,
otherwise the raw process error — propagated unchanged; it is not
InvalidArgument, but it is not wrapped in the boundary's status classes
either. -/
theorem publish_provision_failure_raw (ns : NodeServer) (w : World)
    (req : NodePublishVolumeRequest)
    (hcap : req.volumeCapability ≠ none)
    (hvid : req.volumeId.length ≠ 0) (htp : req.targetPath.length ≠ 0)
    (hf : w.cmdFails ["from", "--name", req.volumeId, "--pull",
      mapIndex req.volumeContext "image"] = true) :
    (NodePublishVolume ns w req).res =
      .error (if decide (0 < ns.Timeout) &&
          w.cmdExceeds ["from", "--name", req.volumeId, "--pull",
            mapIndex req.volumeContext "image"] then GoError.timeoutErr
        else GoError.execErr (w.cmdErrMsg ["from", "--name", req.volumeId,
          "--pull", mapIndex req.volumeContext "image"])) ∧
    ∀ c m, (NodePublishVolume ns w req).res ≠ .error (.statusErr c m) := by
  by_cases ht : (decide (0 < ns.Timeout) &&
      w.cmdExceeds ["from", "--name", req.volumeId, "--pull",
        mapIndex req.volumeContext "image"]) = true
  · simp [NodePublishVolume, setupVolume, runCmd, hcap, hvid, htp, hf, ht]
  · simp [NodePublishVolume, setupVolume, runCmd, hcap, hvid, htp, hf, ht]

/-- Witness for `publish_provision_failure_raw` at a concrete call. -/
theorem publish_provision_failure_raw_witness :
    (reqPub.volumeCapability ≠ none ∧ reqPub.volumeId.length ≠ 0 ∧
      reqPub.targetPath.length ≠ 0 ∧
      wFromFail.cmdFails ["from", "--name", reqPub.volumeId, "--pull",
        mapIndex reqPub.volumeContext "image"] = true) ∧
    ((NodePublishVolume nsT wFromFail reqPub).res =
      .error (if decide (0 < nsT.Timeout) &&
          wFromFail.cmdExceeds ["from", "--name", reqPub.volumeId, "--pull",
            mapIndex reqPub.volumeContext "image"] then GoError.timeoutErr
        else GoError.execErr (wFromFail.cmdErrMsg ["from", "--name",
          reqPub.volumeId, "--pull", mapIndex reqPub.volumeContext "image"])) ∧
      ∀ c m, (NodePublishVolume nsT wFromFail reqPub).res ≠
        .error (.statusErr c m)) :=
  ⟨⟨by decide, by decide, by decide, rfl⟩,
    publish_provision_failure_raw nsT wFromFail reqPub (by decide) (by decide)
      (by decide) rfl⟩

/-- C5 counterexample: when the `from --name --pull` invocation prints
`/roots/A` and the `mount` invocation prints `/roots/B`, the bind-mount
source is `/roots/B` — not the trimmed stdout `/roots/A` of the
provisioning invocation, contradicting the claim. -/
theorem publish_bind_source_cx :
    (NodePublishVolume ns0 wAB reqPub).trace =
      [Op.exec "/bin/buildah" ["from", "--name", "vol-1", "--pull", "repo/app:latest"],
       Op.exec "/bin/buildah" ["mount", "vol-1"],
       Op.mount "/roots/B" "/mnt/x" "" ["bind", "ro"]] ∧
    trimSpace (wAB.cmdOutput
      ["from", "--name", "vol-1", "--pull", "repo/app:latest"]) = "/roots/A" ∧
    ("/roots/B" : String) ≠ "/roots/A" := by
  refine ⟨by decide, by decide, by decide⟩

/-- C5 (amended): the bind-mount source of every bind mount a publish
call performs equals the whitespace-trimmed combined output of the
separate `mount <volumeId>` invocation of the external tool, not of the
`from --name <volumeId> --pull <imageRef>` provisioning invocation. -/
theorem publish_bind_source (ns : NodeServer) (w : World)
    (req : NodePublishVolumeRequest) (s t f : String) (o : List String)
    (h : Op.mount s t f o ∈ (NodePublishVolume ns w req).trace) :
    s = trimSpace ((runCmd { ns with execPath := "/bin/buildah" } w
      ["mount", req.volumeId]).1.getD "") :=
  (mount_mem_publish ns w req s t f o h).1

/-- Witness for `publish_bind_source` at a concrete call. -/
theorem publish_bind_source_witness :
    Op.mount "/roots/B" "/mnt/x" "" ["bind", "ro"] ∈
      (NodePublishVolume ns0 wAB reqPub).trace ∧
    ("/roots/B" : String) = trimSpace ((runCmd
      { ns0 with execPath := "/bin/buildah" } wAB
      ["mount", reqPub.volumeId]).1.getD "") :=
  ⟨by decide, publish_bind_source ns0 wAB reqPub "/roots/B" "/mnt/x" ""
    ["bind", "ro"] (by decide)⟩

/-- C6: a publish request missing the volume capability, the volume id or
the target path, and an unpublish request missing the volume id or the
target path, fail with InvalidArgument while performing no external
operation at all. -/
theorem invalid_requests_rejected (ns : NodeServer) (w : World)
    (reqP : NodePublishVolumeRequest) (reqU : NodeUnpublishVolumeRequest)
    (hP : reqP.volumeCapability = none ∨ reqP.volumeId = "" ∨
      reqP.targetPath = "")
    (hU : reqU.volumeId = "" ∨ reqU.targetPath = "") :
    ((∃ m, (NodePublishVolume ns w reqP).res =
        .error (.statusErr .invalidArgument m)) ∧
      (NodePublishVolume ns w reqP).trace = []) ∧
    ((∃ m, (NodeUnpublishVolume ns w reqU).res =
        .error (.statusErr .invalidArgument m)) ∧
      (NodeUnpublishVolume ns w reqU).trace = []) := by
  constructor
  · rcases hP with hc | hv | ht
    · simp [NodePublishVolume, hc]
    · by_cases hc : reqP.volumeCapability = none
      · simp [NodePublishVolume, hc]
      · simp [NodePublishVolume, hc, hv, String.length_empty]
    · by_cases hc : reqP.volumeCapability = none
      · simp [NodePublishVolume, hc]
      · by_cases hv : reqP.volumeId.length = 0
        · simp [NodePublishVolume, hc, hv]
        · simp [NodePublishVolume, hc, hv, ht, String.length_empty]
  · rcases hU with hv | ht
    · simp [NodeUnpublishVolume, hv, String.length_empty]
    · by_cases hv : reqU.volumeId.length = 0
      · simp [NodeUnpublishVolume, hv]
      · simp [NodeUnpublishVolume, hv, ht, String.length_empty]

/-- Witness for `invalid_requests_rejected` at concrete broken requests. -/
theorem invalid_requests_rejected_witness :
    (reqPubNoCap.volumeCapability = none ∨ reqPubNoCap.volumeId = "" ∨
      reqPubNoCap.targetPath = "") ∧
    (reqUnpubNoId.volumeId = "" ∨ reqUnpubNoId.targetPath = "") ∧
    (((∃ m, (NodePublishVolume ns0 wBase reqPubNoCap).res =
        .error (.statusErr .invalidArgument m)) ∧
      (NodePublishVolume ns0 wBase reqPubNoCap).trace = []) ∧
    ((∃ m, (NodeUnpublishVolume ns0 wBase reqUnpubNoId).res =
        .error (.statusErr .invalidArgument m)) ∧
      (NodeUnpublishVolume ns0 wBase reqUnpubNoId).trace = [])) :=
  ⟨Or.inl rfl, Or.inl rfl,
    invalid_requests_rejected ns0 wBase reqPubNoCap reqUnpubNoId
      (Or.inl rfl) (Or.inl rfl)⟩

/-- C7: a valid unpublish whose existing target is not a mount point
attempts no unmount, still attempts the release invocation, and succeeds
when the release does. -/
theorem unpublish_not_mounted (ns : NodeServer) (w : World)
    (req : NodeUnpublishVolumeRequest)
    (hvid : req.volumeId.length ≠ 0) (htp : req.targetPath.length ≠ 0)
    (hpe : w.pathExists req.targetPath = true)
    (hso : w.statOtherErr req.targetPath = false)
    (hm : w.mounted req.targetPath = false)
    (hdel : w.cmdFails ["delete", req.volumeId] = false) :
    (NodeUnpublishVolume ns w req).res = .ok () ∧
    (NodeUnpublishVolume ns w req).trace =
      [Op.exec "/bin/buildah" ["delete", req.volumeId]] ∧
    ∀ p, Op.unmount p ∉ (NodeUnpublishVolume ns w req).trace := by
  rw [unpublish_not_mounted_eq ns w req hvid htp hpe hso hm hdel]
  refine ⟨rfl, rfl, ?_⟩
  intro p hp
  simp at hp

/-- Witness for `unpublish_not_mounted` at a concrete call. -/
theorem unpublish_not_mounted_witness :
    (reqUnpub.volumeId.length ≠ 0 ∧ reqUnpub.targetPath.length ≠ 0 ∧
      wBase.pathExists reqUnpub.targetPath = true ∧
      wBase.statOtherErr reqUnpub.targetPath = false ∧
      wBase.mounted reqUnpub.targetPath = false ∧
      wBase.cmdFails ["delete", reqUnpub.volumeId] = false) ∧
    ((NodeUnpublishVolume ns0 wBase reqUnpub).res = .ok () ∧
      (NodeUnpublishVolume ns0 wBase reqUnpub).trace =
        [Op.exec "/bin/buildah" ["delete", reqUnpub.volumeId]] ∧
      ∀ p, Op.unmount p ∉ (NodeUnpublishVolume ns0 wBase reqUnpub).trace) :=
  ⟨⟨by decide, by decide, rfl, rfl, rfl, rfl⟩,
    unpublish_not_mounted ns0 wBase reqUnpub (by decide) (by decide)
      rfl rfl rfl rfl⟩

/-- C8: a valid unpublish whose target is currently a mount point
performs exactly one unmount of the target followed by exactly one
release invocation for the volume id, in that order. -/
theorem unpublish_mounted_sequence (ns : NodeServer) (w : World)
    (req : NodeUnpublishVolumeRequest)
    (hvid : req.volumeId.length ≠ 0) (htp : req.targetPath.length ≠ 0)
    (hpe : w.pathExists req.targetPath = true)
    (hso : w.statOtherErr req.targetPath = false)
    (hm : w.mounted req.targetPath = true)
    (hum : w.unmountFails req.targetPath = false) :
    (NodeUnpublishVolume ns w req).trace =
      [Op.unmount req.targetPath,
       Op.exec "/bin/buildah" ["delete", req.volumeId]] := by
  simp [NodeUnpublishVolume, isLikelyNotMountPoint, unpublishRelease_trace,
    hvid, htp, hpe, hso, hm, hum]

/-- Witness for `unpublish_mounted_sequence` at a concrete call. -/
theorem unpublish_mounted_sequence_witness :
    (reqUnpub.volumeId.length ≠ 0 ∧ reqUnpub.targetPath.length ≠ 0 ∧
      wMounted.pathExists reqUnpub.targetPath = true ∧
      wMounted.statOtherErr reqUnpub.targetPath = false ∧
      wMounted.mounted reqUnpub.targetPath = true ∧
      wMounted.unmountFails reqUnpub.targetPath = false) ∧
    (NodeUnpublishVolume ns0 wMounted reqUnpub).trace =
      [Op.unmount reqUnpub.targetPath,
       Op.exec "/bin/buildah" ["delete", reqUnpub.volumeId]] :=
  ⟨⟨by decide, by decide, rfl, rfl, rfl, rfl⟩,
    unpublish_mounted_sequence ns0 wMounted reqUnpub (by decide) (by decide)
      rfl rfl rfl rfl⟩

/-- C9: a publish request that passes field validation but has no
"image" key in its volume context is not rejected as InvalidArgument;
the empty string is used as the image reference and passed to the
external provisioning command. -/
theorem publish_missing_image (ns : NodeServer) (w : World)
    (req : NodePublishVolumeRequest)
    (hcap : req.volumeCapability ≠ none)
    (hvid : req.volumeId.length ≠ 0) (htp : req.targetPath.length ≠ 0)
    (himg : req.volumeContext.find? (fun p => p.1 == "image") = none) :
    (∃ rest, (NodePublishVolume ns w req).trace =
      Op.exec "/bin/buildah" ["from", "--name", req.volumeId, "--pull", ""]
        :: rest) ∧
    ∀ m, (NodePublishVolume ns w req).res ≠
      .error (.statusErr .invalidArgument m) := by
  have h := publish_head ns w req hcap hvid htp
  rwa [show mapIndex req.volumeContext "image" = "" from by
    simp [mapIndex, himg]] at h

/-- Witness for `publish_missing_image` at a concrete call. -/
theorem publish_missing_image_witness :
    (reqPubNoImage.volumeCapability ≠ none ∧
      reqPubNoImage.volumeId.length ≠ 0 ∧
      reqPubNoImage.targetPath.length ≠ 0 ∧
      reqPubNoImage.volumeContext.find? (fun p => p.1 == "image") = none) ∧
    ((∃ rest, (NodePublishVolume ns0 wBase reqPubNoImage).trace =
      Op.exec "/bin/buildah"
        ["from", "--name", reqPubNoImage.volumeId, "--pull", ""] :: rest) ∧
    ∀ m, (NodePublishVolume ns0 wBase reqPubNoImage).res ≠
      .error (.statusErr .invalidArgument m)) :=
  ⟨⟨by decide, by decide, by decide, by decide⟩,
    publish_missing_image ns0 wBase reqPubNoImage (by decide) (by decide)
      (by decide) (by decide)⟩

/-- C10: the fstype argument of every bind mount a publish call performs
is the empty string; the filesystem type requested in the volume
capability never influences the mount. -/
theorem publish_mount_fstype_empty (ns : NodeServer) (w : World)
    (req : NodePublishVolumeRequest) (s t f : String) (o : List String)
    (h : Op.mount s t f o ∈ (NodePublishVolume ns w req).trace) :
    f = "" :=
  (mount_mem_publish ns w req s t f o h).2.2.1

/-- Witness for `publish_mount_fstype_empty` at a concrete call whose
capability requests fstype `ext4`. -/
theorem publish_mount_fstype_empty_witness :
    Op.mount "/provision/root" "/mnt/x" "" ["bind", "ro"] ∈
      (NodePublishVolume ns0 wBase reqPub).trace ∧
    getFsType reqPub.volumeCapability = "ext4" ∧
    ("" : String) = "" :=
  ⟨by decide, by decide,
    publish_mount_fstype_empty ns0 wBase reqPub "/provision/root" "/mnt/x" ""
      ["bind", "ro"] (by decide)⟩

end ImagePopulator
